import Mathlib

/-!
Verification development for the avr-libserial software-UART library
(ATTinyx5 bit-banged 8-N-1 serial).

The definitions below are a shallow embedding of the C source: the ring
buffer operations, the connection-state bitfield, the pin-change
(edge-capture) ISR, the Timer1 compare-match (tick) ISR, and the
foreground API.  Machine integers are modelled as Nat with explicit
truncation (mod 256 for uint8 values, mod 65536 for the 16-bit buffer
top) exactly where the C code can overflow or wrap.  Buffer backing
storage is modelled as a total function Nat -> Nat giving the byte at
each index of the malloc'd region (and whatever follows it), so that
the out-of-range writes the C code can perform are representable.
-/

namespace LibSerial

/-- Return codes of the library (enum return_code_t in serial.h). -/
inductive ReturnCode where
  | SERIAL_ERROR : ReturnCode
  | SERIAL_OK : ReturnCode
deriving DecidableEq, Repr

export ReturnCode (SERIAL_ERROR SERIAL_OK)

/-- Connection state bit SERIAL_IDLE (0b00000000). -/
def SERIAL_IDLE : Nat := 0
/-- Connection state bit SERIAL_SENT_START_BIT (0b00000001). -/
def SERIAL_SENT_START_BIT : Nat := 1
/-- Connection state bit SERIAL_SENDING_DATA (0b00000010). -/
def SERIAL_SENDING_DATA : Nat := 2
/-- Connection state bit SERIAL_TX_BUFFER_LOCKED (0b00000100). -/
def SERIAL_TX_BUFFER_LOCKED : Nat := 4
/-- Connection state bit SERIAL_RECEIVED_START_BIT (0b00001000). -/
def SERIAL_RECEIVED_START_BIT : Nat := 8
/-- Connection state bit SERIAL_RECEIVING_DATA (0b00010000). -/
def SERIAL_RECEIVING_DATA : Nat := 16
/-- Connection state bit SERIAL_RECEIVE_OVERFLOW (0b00100000). -/
def SERIAL_RECEIVE_OVERFLOW : Nat := 32
/-- Connection state value SERIAL_NOT_INITIALISED (0b10000000). -/
def SERIAL_NOT_INITIALISED : Nat := 128

/-- RX buffer capacity in bytes (serial.h). -/
def RX_BUFFER_SIZE : Nat := 64
/-- TX buffer capacity in bytes (serial.h). -/
def TX_BUFFER_SIZE : Nat := 64

/-- Per-baud sample offset thresholds, table sample_offset_treshold
(values for 8 MHz); indices follow serial_speed_t (2400 .. 115200). -/
def sampleOffsetTreshold (speed : Nat) : Nat :=
  match speed with
  | 0 => 120
  | 1 => 30
  | 2 => 14
  | 3 => 7
  | 4 => 5
  | _ => 1

/-- Per-baud timer OCR values, table timer_ocr_values (8 MHz). -/
def timerOcrValues (speed : Nat) : Nat :=
  match speed with
  | 0 => 208
  | 1 => 52
  | 2 => 25
  | 3 => 12
  | 4 => 8
  | _ => 3

/-- The struct buffer of the C source: an advisory lock flag, the
malloc'd backing storage (modelled as the byte value at every index of
the region), the 16-bit write index top, and the dirty flag used by the
RX consumed-head protocol. -/
structure Buffer where
  lock : Bool
  data : Nat → Nat
  top : Nat
  dirty : Bool

/-- move_connection_state: connection_state &= ~src_state;
connection_state |= dst_state.  The bitwise complement of the uint8
src_state is 255 ^^^ src for the 8-bit values used by the library. -/
def moveConnectionState (cs src dst : Nat) : Nat :=
  (cs &&& (255 ^^^ src)) ||| dst

/-- connection_state_is: connection_state & expected_state, used by the
ISRs as a truth value, so modelled as the Bool it is branched on. -/
def connectionStateIs (cs expected : Nat) : Bool :=
  cs &&& expected != 0

/-- shift_buffer_down: if the buffer is locked, return SERIAL_ERROR and
leave the buffer untouched; otherwise take the lock, copy data i+1 into
data i for every i below top, write 0 at index top (the post-decrement
write data at top minus minus), decrement the 16-bit top with wrap, drop
the lock and return SERIAL_OK.  The C loop index i is a uint8_t, so the
C loop only terminates for top below 256; this model is the meaning of
the code for top < 256 (the buffers have capacity 64). -/
def shiftBufferDown (b : Buffer) : ReturnCode × Buffer :=
  if b.lock then (SERIAL_ERROR, b)
  else
    let moved : Nat → Nat := fun i => if i < b.top then b.data (i + 1) else b.data i
    (SERIAL_OK,
      { lock := false
        data := Function.update moved b.top 0
        top := (b.top + 65535) % 65536
        dirty := b.dirty })

/-- store_data: sets the lock unconditionally (it does not test it),
appends the byte at index top when top < RX_BUFFER_SIZE, otherwise
moves the connection state RECEIVING_DATA -> RECEIVE_OVERFLOW; finally
clears the lock.  Returns the pair of the updated buffer and the
updated connection state together with the return code. -/
def storeData (b : Buffer) (cs : Nat) (data : Nat) : ReturnCode × Buffer × Nat :=
  if b.top < RX_BUFFER_SIZE then
    (SERIAL_OK,
      { lock := false
        data := Function.update b.data b.top (data % 256)
        top := b.top + 1
        dirty := b.dirty },
      cs)
  else
    (SERIAL_ERROR, { b with lock := false },
      moveConnectionState cs SERIAL_RECEIVING_DATA SERIAL_RECEIVE_OVERFLOW)

/-- The file-global mutable state of the library core: the connection
state bitfield, the two ring buffers, the per-direction bit cursors,
working bytes, phase toggles, the RX sample countdown and the captured
start-bit timer count, plus the two hardware bits the core drives that
are observable to it: the GIMSK PCIE pin-change enable bit and the TX
pin output level. -/
structure SerialState where
  connectionState : Nat
  rxBuffer : Buffer
  txBuffer : Buffer
  rxBitCounter : Nat
  txBitCounter : Nat
  rxByte : Nat
  txByte : Nat
  rxPhase : Nat
  txPhase : Nat
  rxSampleCountdown : Nat
  rxStartBitTimecount : Nat
  pcintEnabled : Bool
  txPinLevel : Bool

/-- ISR(PCINT0_vect), the RX edge-capture ISR: snapshot TCNT1 into
rx_start_bit_timecount, return if the RX pin reads high (spurious
edge), otherwise disable the pin-change interrupt, seed
rx_sample_countdown to 2 when the captured count is below the per-baud
threshold and to 3 otherwise, and move IDLE -> RECEIVED_START_BIT.
The compile-time SERIAL_SPEED macro and the TCNT1 reading are explicit
parameters. -/
def pcintISR (speed tcnt1 : Nat) (rxPin : Bool) (s : SerialState) : SerialState :=
  let s := { s with rxStartBitTimecount := tcnt1 % 256 }
  if rxPin then s
  else
    let s := { s with pcintEnabled := false }
    let s := { s with rxSampleCountdown :=
                 if s.rxStartBitTimecount < sampleOffsetTreshold speed then 2 else 3 }
    { s with connectionState :=
        moveConnectionState s.connectionState SERIAL_IDLE SERIAL_RECEIVED_START_BIT }

/-- RX section of ISR(TIM1_COMPA_vect).  In RECEIVED_START_BIT the
countdown is post-decremented (wrapping 0 to 255) and compared against
its old value; when the old value was 0 the first data bit is sampled
into rx_byte at position rx_bit_counter, the counter is incremented,
rx_phase cleared, and the state moves to RECEIVING_DATA.  In
RECEIVING_DATA with rx_phase set, the phase is cleared and either a
data bit is sampled (counter below 8, C switch default case) or the
stop bit is inspected (counter exactly 8): if it reads high the byte is
committed through store_data and the working byte and counter reset; if
it reads low nothing is stored (and the counter and byte are left as
they are); in both cases the state moves RECEIVING_DATA -> IDLE and the
pin-change interrupt is re-enabled.  Otherwise rx_phase is set to 1.
The C expression 1 << rx_bit_counter is a 16-bit int shift; its effect
on the uint8 rx_byte is modelled by the or followed by mod 256. -/
def rxHalf (rxPin : Bool) (s : SerialState) : SerialState :=
  if connectionStateIs s.connectionState SERIAL_RECEIVED_START_BIT then
    if s.rxSampleCountdown = 0 then
      { s with
          rxSampleCountdown := 255
          rxByte := if rxPin then (s.rxByte ||| (1 <<< s.rxBitCounter)) % 256 else s.rxByte
          rxBitCounter := (s.rxBitCounter + 1) % 256
          rxPhase := 0
          connectionState :=
            moveConnectionState s.connectionState SERIAL_RECEIVED_START_BIT SERIAL_RECEIVING_DATA }
    else
      { s with rxSampleCountdown := s.rxSampleCountdown - 1 }
  else if s.rxPhase != 0 && connectionStateIs s.connectionState SERIAL_RECEIVING_DATA then
    let s := { s with rxPhase := 0 }
    if s.rxBitCounter = 8 then
      if rxPin then
        let s := { s with rxBitCounter := 0 }
        let r := storeData s.rxBuffer s.connectionState s.rxByte
        let s := { s with rxBuffer := r.2.1, connectionState := r.2.2, rxByte := 0 }
        { s with
            connectionState :=
              moveConnectionState s.connectionState SERIAL_RECEIVING_DATA SERIAL_IDLE
            pcintEnabled := true }
      else
        { s with
            connectionState :=
              moveConnectionState s.connectionState SERIAL_RECEIVING_DATA SERIAL_IDLE
            pcintEnabled := true }
    else
      { s with
          rxByte := if rxPin then (s.rxByte ||| (1 <<< s.rxBitCounter)) % 256 else s.rxByte
          rxBitCounter := (s.rxBitCounter + 1) % 256 }
  else
    { s with rxPhase := 1 }

/-- TX section of ISR(TIM1_COMPA_vect): the switch on tx_phase.  Phase
0 only toggles the phase.  Phase 1 clears it and branches on the
connection state: SENT_START_BIT emits data bit tx_bit_counter (post
increment) and moves to SENDING_DATA; SENDING_DATA either emits the
next data bit or, at counter 8, drives the stop bit and attempts
shift_buffer_down on the TX buffer, moving to IDLE on SERIAL_OK and to
TX_BUFFER_LOCKED otherwise; TX_BUFFER_LOCKED retries the shift and on
SERIAL_OK executes move_connection_state SENDING_DATA -> IDLE exactly
as the source does; otherwise, when the TX buffer is nonempty, the
start bit is driven low, the head byte latched and the state moves
IDLE -> SENT_START_BIT. -/
def txHalf (s : SerialState) : SerialState :=
  if s.txPhase = 0 then { s with txPhase := 1 }
  else if s.txPhase = 1 then
    let s := { s with txPhase := 0 }
    if connectionStateIs s.connectionState SERIAL_SENT_START_BIT then
      { s with
          txPinLevel := s.txByte &&& (1 <<< s.txBitCounter) != 0
          txBitCounter := (s.txBitCounter + 1) % 256
          connectionState :=
            moveConnectionState s.connectionState SERIAL_SENT_START_BIT SERIAL_SENDING_DATA }
    else if connectionStateIs s.connectionState SERIAL_SENDING_DATA then
      if s.txBitCounter = 8 then
        let s := { s with txPinLevel := true }
        let r := shiftBufferDown s.txBuffer
        let s := { s with txBuffer := r.2 }
        if r.1 = SERIAL_OK then
          { s with connectionState :=
              moveConnectionState s.connectionState SERIAL_SENDING_DATA SERIAL_IDLE }
        else
          { s with connectionState :=
              moveConnectionState s.connectionState SERIAL_SENDING_DATA SERIAL_TX_BUFFER_LOCKED }
      else
        { s with
            txPinLevel := s.txByte &&& (1 <<< s.txBitCounter) != 0
            txBitCounter := (s.txBitCounter + 1) % 256 }
    else if connectionStateIs s.connectionState SERIAL_TX_BUFFER_LOCKED then
      let r := shiftBufferDown s.txBuffer
      let s := { s with txBuffer := r.2 }
      if r.1 = SERIAL_OK then
        { s with connectionState :=
            moveConnectionState s.connectionState SERIAL_SENDING_DATA SERIAL_IDLE }
      else s
    else
      if s.txBuffer.top != 0 then
        { s with
            txPinLevel := false
            txByte := s.txBuffer.data 0
            txBitCounter := 0
            connectionState :=
              moveConnectionState s.connectionState SERIAL_IDLE SERIAL_SENT_START_BIT }
      else s
  else s

/-- Bottom handler of ISR(TIM1_COMPA_vect): if rx_buffer.dirty,
shift_buffer_down the RX buffer and then clear dirty (the source clears
dirty unconditionally, whatever shift_buffer_down returned). -/
def bottomHalf (s : SerialState) : SerialState :=
  if s.rxBuffer.dirty then
    let r := shiftBufferDown s.rxBuffer
    { s with rxBuffer := { r.2 with dirty := false } }
  else s

/-- ISR(TIM1_COMPA_vect): the three sections in source order (RX half,
TX half, RX bottom half), each reading the state the previous section
left.  The RX pin level at this tick is the rxPin parameter. -/
def tickISR (rxPin : Bool) (s : SerialState) : SerialState :=
  bottomHalf (txHalf (rxHalf rxPin s))

/-- Iterated tick ISR over a list of per-tick RX pin levels. -/
def runTicks (s : SerialState) (pins : List Bool) : SerialState :=
  pins.foldl (fun s p => tickISR p s) s

/-- serial_put_char: append a byte to the TX buffer under the advisory
lock, returning SERIAL_OK, or return SERIAL_ERROR when the buffer is
full.  acquire_buffer_lock spins until the lock is free, so the model
describes the call from the moment the spin has completed (the lock is
taken and then released, leaving it clear on return). -/
def serialPutChar (data : Nat) (s : SerialState) : ReturnCode × SerialState :=
  let b := s.txBuffer
  if b.top < TX_BUFFER_SIZE then
    (SERIAL_OK,
      { s with txBuffer :=
          { lock := false
            data := Function.update b.data b.top (data % 256)
            top := b.top + 1
            dirty := b.dirty } })
  else
    (SERIAL_ERROR, { s with txBuffer := { b with lock := false } })

/-- serial_get_char: after wait_buffer_clean has seen dirty clear, read
the head byte of the RX buffer and set dirty so the next tick's bottom
half retires it. -/
def serialGetChar (s : SerialState) : Nat × SerialState :=
  (s.rxBuffer.data 0, { s with rxBuffer := { s.rxBuffer with dirty := true } })

/-- serial_enable_receive: set the pin-change interrupt enable bit. -/
def serialEnableReceive (s : SerialState) : SerialState :=
  { s with pcintEnabled := true }

/-- serial_disable_receive: clear the pin-change interrupt enable bit. -/
def serialDisableReceive (s : SerialState) : SerialState :=
  { s with pcintEnabled := false }

/-- One step of the core: a tick ISR with some RX pin level, a
pin-change ISR (possible only while the pin-change interrupt is
enabled) with some captured timer count and pin level, or one of the
state-changing foreground calls.  serial_put_char runs once its spin on
the TX lock has completed and serial_get_char once its spin on the
dirty flag has completed, which is what the side conditions record;
serial_send_data is a loop of serial_put_char calls and
serial_data_pending does not change the state. -/
inductive Step : SerialState → SerialState → Prop where
  | tick (pin : Bool) (s : SerialState) : Step s (tickISR pin s)
  | pcint (speed tcnt1 : Nat) (pin : Bool) (s : SerialState)
      (h : s.pcintEnabled = true) : Step s (pcintISR speed tcnt1 pin s)
  | putChar (data : Nat) (s : SerialState)
      (h : s.txBuffer.lock = false) : Step s (serialPutChar data s).2
  | getChar (s : SerialState)
      (h : s.rxBuffer.dirty = false) : Step s (serialGetChar s).2
  | enableReceive (s : SerialState) : Step s (serialEnableReceive s)
  | disableReceive (s : SerialState) : Step s (serialDisableReceive s)

/-- The state right after a successful serial_initialise: connection
state IDLE, both buffers unlocked, clean and empty (the malloc'd
contents are unspecified; 0 is a representative), counters, bytes,
phases and countdowns at their static initial values, pin-change
capture not yet enabled, TX pin driven high (idle). -/
def initState : SerialState :=
  { connectionState := SERIAL_IDLE
    rxBuffer := { lock := false, data := fun _ => 0, top := 0, dirty := false }
    txBuffer := { lock := false, data := fun _ => 0, top := 0, dirty := false }
    rxBitCounter := 0
    txBitCounter := 0
    rxByte := 0
    txByte := 0
    rxPhase := 0
    txPhase := 0
    rxSampleCountdown := 0
    rxStartBitTimecount := 0
    pcintEnabled := false
    txPinLevel := true }

/-- States reachable from the post-initialise Idle state by the two
ISRs and the foreground calls. -/
def Reachable (s : SerialState) : Prop :=
  Relation.ReflTransGen Step initState s

/-- The I/O port argument of setup_io: the address compared against
PORTB and PINB (any other port address is rejected). -/
inductive PortSel where
  | portB : PortSel
  | pinB : PortSel
  | otherPort : PortSel
deriving DecidableEq, Repr

/-- serial_direction_t. -/
inductive SerialDirection where
  | SERIAL_DIR_TX : SerialDirection
  | SERIAL_DIR_RX : SerialDirection
deriving DecidableEq, Repr

/-- ATTinyx5 register bit positions used by serial_initialise. -/
def OCIE1A : Nat := 6
/-- TCCR1 CTC1 bit position. -/
def CTC1 : Nat := 7
/-- TCCR1 CS13 bit position. -/
def CS13 : Nat := 3
/-- TCCR1 CS12 bit position. -/
def CS12 : Nat := 2
/-- TCCR1 CS11 bit position. -/
def CS11 : Nat := 1
/-- TCCR1 CS10 bit position. -/
def CS10 : Nat := 0

/-- The state serial_initialise reads and writes: the connection state,
the data pointers of the two buffers (none models the initial NULL),
and the hardware registers it programs.  The buffer contents, tops and
flags are not touched by serial_initialise and are omitted. -/
structure InitState where
  connectionState : Nat
  rxDataPtr : Option Nat
  txDataPtr : Option Nat
  ddrb : Nat
  portb : Nat
  pcmsk : Nat
  timsk : Nat
  tccr1 : Nat
  ocr1a : Nat
  ocr1c : Nat
deriving DecidableEq, Repr

/-- setup_io: reject a port that is neither PORTB nor PINB, reject a
pin above 5, then program DDRB and PORTB: output and idle-high for TX,
input without pull-up for RX. -/
def setupIoPin (port : PortSel) (pin : Nat) (dir : SerialDirection)
    (s : InitState) : ReturnCode × InitState :=
  if port ≠ PortSel.portB ∧ port ≠ PortSel.pinB then (SERIAL_ERROR, s)
  else if pin > 5 then (SERIAL_ERROR, s)
  else
    match dir with
    | SerialDirection.SERIAL_DIR_TX =>
        (SERIAL_OK,
          { s with ddrb := s.ddrb ||| (1 <<< pin), portb := s.portb ||| (1 <<< pin) })
    | SerialDirection.SERIAL_DIR_RX =>
        (SERIAL_OK,
          { s with ddrb := s.ddrb &&& (255 ^^^ (1 <<< pin))
                   portb := s.portb &&& (255 ^^^ (1 <<< pin)) })

/-- serial_initialise, in source order: fail if the timer is already
running (low nibble of TCCR1 nonzero); fail if either malloc returns
NULL (the two allocation outcomes are the rxAlloc and txAlloc
parameters); store the two data pointers into the buffers; set up the
TX then the RX pin, failing if setup_io fails; program PCMSK, TIMSK,
CTC mode, the OCR compare values from the per-baud table, and the /8
prescaler bits; set the connection state to SERIAL_IDLE and return
SERIAL_OK.  The compile-time TX_PORT, TX_PIN, RX_PORT, RX_PIN and
SERIAL_SPEED configuration macros are explicit parameters. -/
def serialInitialise (txPort : PortSel) (txPin : Nat) (rxPort : PortSel) (rxPin : Nat)
    (speed : Nat) (rxAlloc txAlloc : Option Nat) (s : InitState) :
    ReturnCode × InitState :=
  if s.tccr1 &&& 15 ≠ 0 then (SERIAL_ERROR, s)
  else
    match rxAlloc with
    | none => (SERIAL_ERROR, s)
    | some rxd =>
      match txAlloc with
      | none => (SERIAL_ERROR, s)
      | some txd =>
        let s := { s with rxDataPtr := some rxd, txDataPtr := some txd }
        let r1 := setupIoPin txPort txPin SerialDirection.SERIAL_DIR_TX s
        if r1.1 ≠ SERIAL_OK then (SERIAL_ERROR, r1.2)
        else
          let r2 := setupIoPin rxPort rxPin SerialDirection.SERIAL_DIR_RX r1.2
          if r2.1 ≠ SERIAL_OK then (SERIAL_ERROR, r2.2)
          else
            let s := r2.2
            let s := { s with pcmsk := s.pcmsk ||| (1 <<< rxPin) }
            let s := { s with timsk := s.timsk ||| (1 <<< OCIE1A) }
            let s := { s with tccr1 := s.tccr1 ||| (1 <<< CTC1) }
            let s := { s with ocr1a := timerOcrValues speed, ocr1c := timerOcrValues speed }
            let s := { s with tccr1 :=
                         s.tccr1 &&&
                           (255 ^^^ ((1 <<< CS13) ||| (1 <<< CS12) ||| (1 <<< CS11) ||| (1 <<< CS10))) }
            let s := { s with tccr1 := s.tccr1 ||| (1 <<< CS12) }
            (SERIAL_OK, { s with connectionState := SERIAL_IDLE })

/-!
Claims.
-/

/-- C8: shift_buffer_down returns SERIAL_ERROR (LOCKED) and leaves the
buffer entirely unchanged when the lock flag is set; otherwise it
returns SERIAL_OK with the lock clear again, the 16-bit top
decremented (with wrap), the dirty flag untouched, and every valid
content byte shifted down one slot: for top = n > 0 the new content on
indices 0 .. n-2 equals the old content on indices 1 .. n-1.  The
unlocked case is stated for top < 256, where the uint8 loop index of
the C code covers the buffer. -/
theorem claim_C8_shift_down_contract (b : Buffer) :
    (b.lock = true → shiftBufferDown b = (SERIAL_ERROR, b)) ∧
    (b.lock = false → b.top < 256 →
      (shiftBufferDown b).1 = SERIAL_OK ∧
      (shiftBufferDown b).2.lock = false ∧
      (shiftBufferDown b).2.dirty = b.dirty ∧
      (shiftBufferDown b).2.top = (b.top + 65535) % 65536 ∧
      (0 < b.top → (shiftBufferDown b).2.top = b.top - 1) ∧
      (∀ i, i + 1 < b.top → (shiftBufferDown b).2.data i = b.data (i + 1))) := by
  constructor
  · intro h
    simp [shiftBufferDown, h]
  · intro h _
    refine ⟨?_, ?_, ?_, ?_, ?_, ?_⟩
    · simp [shiftBufferDown, h]
    · simp [shiftBufferDown, h]
    · simp [shiftBufferDown, h]
    · simp [shiftBufferDown, h]
    · intro hpos
      simp only [shiftBufferDown, h, if_false, Bool.false_eq_true]
      omega
    · intro i hi
      simp only [shiftBufferDown, h, if_false, Bool.false_eq_true]
      have hne : i ≠ b.top := by omega
      simp [Function.update, hne]
      omega

/-- Concrete instance for C8: an unlocked buffer with two queued bytes
10, 11 shifts down to one queued byte 11. -/
def c8Buf : Buffer := ⟨false, fun i => 10 + i, 2, false⟩

/-- Witness for C8 at a concrete unlocked buffer. -/
theorem claim_C8_shift_down_contract_witness :
    (shiftBufferDown c8Buf).1 = SERIAL_OK ∧
    (shiftBufferDown c8Buf).2.top = 1 ∧
    (shiftBufferDown c8Buf).2.data 0 = 11 := by
  have h := (claim_C8_shift_down_contract c8Buf).2 rfl (by decide)
  refine ⟨h.1, ?_, ?_⟩
  · rw [h.2.2.2.2.1 (by decide)]
    decide
  · rw [h.2.2.2.2.2 0 (by decide)]
    decide

/-- C10: shift_buffer_down on an unlocked buffer with top = 0 still
returns SERIAL_OK and wraps the 16-bit top to 65535 (the C code
post-decrements the uint16 top without an emptiness check). -/
theorem claim_C10_shift_down_empty_wraps (b : Buffer)
    (hl : b.lock = false) (ht : b.top = 0) :
    (shiftBufferDown b).1 = SERIAL_OK ∧ (shiftBufferDown b).2.top = 65535 := by
  simp [shiftBufferDown, hl, ht]

/-- Witness for C10 at a concrete empty unlocked buffer. -/
theorem claim_C10_shift_down_empty_wraps_witness :
    (shiftBufferDown ⟨false, fun _ => 0, 0, false⟩).1 = SERIAL_OK ∧
    (shiftBufferDown ⟨false, fun _ => 0, 0, false⟩).2.top = 65535 :=
  claim_C10_shift_down_empty_wraps ⟨false, fun _ => 0, 0, false⟩ rfl rfl

/-- Concrete locked buffer for the C6 counterexample. -/
def c6Buf : Buffer := ⟨true, fun _ => 0, 0, false⟩

/-- Counterexample to C6 as stated: store_data (the RX append path of
the tick ISR) does not check the advisory lock; on a buffer whose lock
is already held it still appends the byte, changing data and top. -/
theorem claim_C6_counterexample :
    c6Buf.lock = true ∧
    (storeData c6Buf 0 7).1 = SERIAL_OK ∧
    (storeData c6Buf 0 7).2.1.top = 1 ∧
    (storeData c6Buf 0 7).2.1.data 0 = 7 := by
  refine ⟨rfl, ?_, ?_, ?_⟩ <;> decide

/-- C6 amended: of the two ISR buffer-writing paths, only the TX
shift-down (shift_buffer_down) checks the advisory lock first and
leaves the buffer unchanged when it is held; the RX append
(store_data) sets the lock unconditionally and mutates the buffer even
when the lock was already held (and clears the lock on exit). -/
theorem claim_C6_amended (b : Buffer) (cs d : Nat) :
    (b.lock = true → shiftBufferDown b = (SERIAL_ERROR, b)) ∧
    (b.top < RX_BUFFER_SIZE →
      (storeData b cs d).1 = SERIAL_OK ∧
      (storeData b cs d).2.1.top = b.top + 1 ∧
      (storeData b cs d).2.1.data b.top = d % 256 ∧
      (storeData b cs d).2.1.lock = false) := by
  constructor
  · intro h
    simp [shiftBufferDown, h]
  · intro h
    have h64 : b.top < 64 := h
    refine ⟨?_, ?_, ?_, ?_⟩ <;> simp [storeData, RX_BUFFER_SIZE, h64, Function.update]

/-- Witness for C6 amended: the locked-shift clause at a locked buffer
and the append clause at a locked, non-full buffer. -/
theorem claim_C6_amended_witness :
    shiftBufferDown c6Buf = (SERIAL_ERROR, c6Buf) ∧
    (storeData c6Buf 3 7).2.1.top = 1 := by
  refine ⟨(claim_C6_amended c6Buf 3 7).1 rfl, ((claim_C6_amended c6Buf 3 7).2 (by decide)).2.1⟩

/-- Concrete state for the C7 counterexample: the RX buffer is dirty,
holds one byte and its lock flag is set, so the bottom-half shift_down
returns LOCKED on this tick. -/
def c7State : SerialState :=
  { initState with rxBuffer := ⟨true, fun _ => 9, 1, true⟩ }

/-- Counterexample to C7 as stated: when the bottom half's shift_down
returns LOCKED, the tick ISR still clears dirty (the head byte is not
removed, top stays 1, yet dirty is reset), so the removal is not
retried on a later tick. -/
theorem claim_C7_counterexample :
    c7State.rxBuffer.dirty = true ∧ c7State.rxBuffer.lock = true ∧
    (tickISR false c7State).rxBuffer.top = 1 ∧
    (tickISR false c7State).rxBuffer.dirty = false := by
  refine ⟨rfl, rfl, ?_, ?_⟩ <;> decide

/-- C7 amended: in the tick ISR's RX bottom half, when rx_buffer.dirty
is set, shift_down is invoked and dirty is cleared unconditionally,
whether or not the shift succeeded: on LOCKED the head byte stays (top
unchanged) and the dirty signal is nevertheless lost; on success the
top is decremented.  (In the library's own call graph the RX lock is
never held when a tick runs, so the LOCKED case is latent.) -/
theorem claim_C7_amended (s : SerialState) (h : s.rxBuffer.dirty = true) :
    (bottomHalf s).rxBuffer.dirty = false ∧
    (s.rxBuffer.lock = true →
      (bottomHalf s).rxBuffer.top = s.rxBuffer.top ∧
      ∀ i, (bottomHalf s).rxBuffer.data i = s.rxBuffer.data i) ∧
    (s.rxBuffer.lock = false →
      (bottomHalf s).rxBuffer.top = (s.rxBuffer.top + 65535) % 65536) := by
  refine ⟨?_, ?_, ?_⟩
  · simp [bottomHalf, h]
  · intro hl
    constructor
    · simp [bottomHalf, shiftBufferDown, h, hl]
    · intro i
      simp [bottomHalf, shiftBufferDown, h, hl]
  · intro hl
    simp [bottomHalf, shiftBufferDown, h, hl]

/-- Witness for C7 amended at the concrete locked dirty state. -/
theorem claim_C7_amended_witness :
    (bottomHalf c7State).rxBuffer.dirty = false ∧
    (bottomHalf c7State).rxBuffer.top = 1 := by
  have h := claim_C7_amended c7State rfl
  exact ⟨h.1, (h.2.1 rfl).1⟩

/-- C9: for a byte b, serial_put_char b returns SERIAL_OK exactly when
the TX buffer top is below TX_BUFFER_SIZE before the call; in that
case b is appended at index top, top is incremented by 1, and every
other entry is unchanged; otherwise it returns SERIAL_ERROR and the TX
buffer contents and top are unchanged.  The foreground acquires the
advisory lock by spinning, so the statement concerns the call once the
spin has observed the lock free. -/
theorem claim_C9_put_char_contract (s : SerialState) (b : Nat)
    (hb : b < 256) (hl : s.txBuffer.lock = false) :
    ((serialPutChar b s).1 = SERIAL_OK ↔ s.txBuffer.top < TX_BUFFER_SIZE) ∧
    (s.txBuffer.top < TX_BUFFER_SIZE →
      (serialPutChar b s).2.txBuffer.top = s.txBuffer.top + 1 ∧
      (serialPutChar b s).2.txBuffer.data s.txBuffer.top = b ∧
      ∀ i, i ≠ s.txBuffer.top →
        (serialPutChar b s).2.txBuffer.data i = s.txBuffer.data i) ∧
    (¬ s.txBuffer.top < TX_BUFFER_SIZE →
      (serialPutChar b s).1 = SERIAL_ERROR ∧
      (serialPutChar b s).2.txBuffer.top = s.txBuffer.top ∧
      (serialPutChar b s).2.txBuffer.data = s.txBuffer.data ∧
      (serialPutChar b s).2.txBuffer.dirty = s.txBuffer.dirty) := by
  refine ⟨?_, ?_, ?_⟩
  · by_cases h : s.txBuffer.top < TX_BUFFER_SIZE <;> simp [serialPutChar, h]
  · intro h
    refine ⟨?_, ?_, ?_⟩
    · simp [serialPutChar, h]
    · simp [serialPutChar, h, Function.update, Nat.mod_eq_of_lt hb]
    · intro i hi
      simp [serialPutChar, h, Function.update, hi]
  · intro h
    refine ⟨?_, ?_, ?_, ?_⟩ <;> simp [serialPutChar, h]

/-- Concrete state for C2: connection state is exactly
SERIAL_TX_BUFFER_LOCKED, the TX phase is odd so the TX half acts this
tick, and the TX buffer is unlocked with one queued byte, so the
retried shift_buffer_down returns SERIAL_OK. -/
def c2State : SerialState :=
  { initState with
      connectionState := SERIAL_TX_BUFFER_LOCKED
      txPhase := 1
      txBuffer := { lock := false, data := fun i => if i = 0 then 65 else 0
                    top := 1, dirty := false } }

/-- C2 evaluated at the failing input: in the TxLocked branch the
source executes move_connection_state SENDING_DATA -> IDLE, which
clears bit 1 (not set) instead of the TxLocked bit 2; so although the
retried shift succeeds (the queued byte is shifted out, top drops to
0), the TX substate after the tick is still SERIAL_TX_BUFFER_LOCKED
rather than Idle as the claim states. -/
theorem claim_C2_txlocked_bit_not_cleared :
    c2State.connectionState = SERIAL_TX_BUFFER_LOCKED ∧
    c2State.txBuffer.lock = false ∧
    (shiftBufferDown c2State.txBuffer).1 = SERIAL_OK ∧
    (tickISR false c2State).txBuffer.top = 0 ∧
    (tickISR false c2State).connectionState = SERIAL_TX_BUFFER_LOCKED := by
  refine ⟨rfl, rfl, ?_, ?_, ?_⟩ <;> decide

/-- Concrete state for C1: a frame has been fully sampled
(rx_bit_counter is 8), the working byte holds the corrupt value 0x5A,
rx_phase is odd, and the stop-bit position will be sampled low. -/
def c1FramingState : SerialState :=
  { initState with
      connectionState := SERIAL_RECEIVING_DATA
      rxPhase := 1
      rxBitCounter := 8
      rxByte := 90 }

/-- The state after the framing-error tick (stop bit sampled low). -/
def c1AfterError : SerialState := tickISR false c1FramingState

/-- The per-tick RX pin levels of a clean 8-N-1 frame carrying 0x41
after its start-bit edge: the start bit low for two ticks, then each
data bit (LSB first: 1,0,0,0,0,0,1,0) for two ticks, then the stop bit
high; the data-bit samples fall on ticks 3,5,7,9,11,13,15,17 and the
stop-bit inspection on tick 19. -/
def c1CleanFramePins : List Bool :=
  [false, false, true, true, false, false, false, false, false, false,
   false, false, false, true, true, false, false, true, true]

set_option maxRecDepth 8000 in
/-- C1 evaluated at the failing input: the framing-error tick does
discard the corrupt byte (nothing is stored), returns the RX substate
to Idle and re-enables pin-change capture, but it leaves
rx_bit_counter at 8 and rx_byte at the corrupt value.  As a result the
immediately following clean frame carrying 0x41 is not received: its
first sample is ORed at bit position 8 and the counter runs past 8, so
after the whole frame the state is still RECEIVING_DATA and the RX
buffer is still empty, while the same frame fed to a clean Idle state
is delivered (top becomes 1 with head byte 0x41). -/
theorem claim_C1_framing_error_corrupts_next_frame :
    c1AfterError.rxBuffer.top = 0 ∧
    c1AfterError.connectionState = SERIAL_IDLE ∧
    c1AfterError.pcintEnabled = true ∧
    c1AfterError.rxBitCounter = 8 ∧
    c1AfterError.rxByte = 90 ∧
    (runTicks (pcintISR 0 0 false c1AfterError) c1CleanFramePins).rxBuffer.top = 0 ∧
    (runTicks (pcintISR 0 0 false c1AfterError) c1CleanFramePins).connectionState
      = SERIAL_RECEIVING_DATA ∧
    (runTicks (pcintISR 0 0 false (serialEnableReceive initState))
        c1CleanFramePins).rxBuffer.top = 1 ∧
    (runTicks (pcintISR 0 0 false (serialEnableReceive initState))
        c1CleanFramePins).rxBuffer.data 0 = 65 := by
  refine ⟨?_, ?_, ?_, ?_, ?_, ?_, ?_, ?_, ?_⟩ <;> decide

/-- Concrete state for the C4 counterexample: RX substate
ReceivedStart with sample_countdown freshly seeded to 2 by an early
edge, no bits sampled yet, TX idle and RX buffer clean. -/
def c4State : SerialState :=
  { initState with
      connectionState := SERIAL_RECEIVED_START_BIT
      rxSampleCountdown := 2 }

/-- Counterexample to C4 as stated: with sample_countdown seeded to 2,
after two ticks the countdown has reached 0 but no data bit has been
sampled and the substate is still ReceivedStart — the ISR compares the
countdown against 0 before post-decrementing, so it samples on the
tick at which the countdown already reads 0, i.e. the 3rd tick after
the edge, not the 2nd. -/
theorem claim_C4_counterexample :
    c4State.rxSampleCountdown = 2 ∧
    (runTicks c4State [true, true]).rxSampleCountdown = 0 ∧
    (runTicks c4State [true, true]).rxBitCounter = 0 ∧
    (runTicks c4State [true, true]).connectionState = SERIAL_RECEIVED_START_BIT ∧
    (runTicks c4State [true, true, true]).rxBitCounter = 1 ∧
    (runTicks c4State [true, true, true]).connectionState = SERIAL_RECEIVING_DATA := by
  refine ⟨rfl, ?_, ?_, ?_, ?_, ?_⟩ <;> decide

/-- At most one TX substate bit (SentStart bit 0, Sending bit 1,
TxLocked bit 2) is set in the connection-state bitfield. -/
def txOk (cs : Nat) : Prop :=
  cs &&& 7 = 0 ∨ cs &&& 7 = 1 ∨ cs &&& 7 = 2 ∨ cs &&& 7 = 4

instance txOkDecidable (cs : Nat) : Decidable (txOk cs) := by
  unfold txOk
  infer_instance

set_option maxRecDepth 16000 in
/-- Bit-level facts about the connection-state moves executed by the
RX half and the edge-capture ISR: each stays a uint8, does not touch
the three TX bits, and keeps the Overflow bit (bit 5) set once set;
the fourth clause covers the composite overflow move executed inside
store_data followed by the stop-bit move to Idle. -/
theorem move_rx_facts : ∀ cs < 256,
    (moveConnectionState cs SERIAL_RECEIVED_START_BIT SERIAL_RECEIVING_DATA < 256 ∧
      moveConnectionState cs SERIAL_RECEIVED_START_BIT SERIAL_RECEIVING_DATA &&& 7 = cs &&& 7 ∧
      (cs &&& 32 = 32 →
        moveConnectionState cs SERIAL_RECEIVED_START_BIT SERIAL_RECEIVING_DATA &&& 32 = 32)) ∧
    (moveConnectionState cs SERIAL_RECEIVING_DATA SERIAL_IDLE < 256 ∧
      moveConnectionState cs SERIAL_RECEIVING_DATA SERIAL_IDLE &&& 7 = cs &&& 7 ∧
      (cs &&& 32 = 32 →
        moveConnectionState cs SERIAL_RECEIVING_DATA SERIAL_IDLE &&& 32 = 32)) ∧
    (moveConnectionState
        (moveConnectionState cs SERIAL_RECEIVING_DATA SERIAL_RECEIVE_OVERFLOW)
        SERIAL_RECEIVING_DATA SERIAL_IDLE < 256 ∧
      moveConnectionState
        (moveConnectionState cs SERIAL_RECEIVING_DATA SERIAL_RECEIVE_OVERFLOW)
        SERIAL_RECEIVING_DATA SERIAL_IDLE &&& 7 = cs &&& 7 ∧
      (cs &&& 32 = 32 →
        moveConnectionState
          (moveConnectionState cs SERIAL_RECEIVING_DATA SERIAL_RECEIVE_OVERFLOW)
          SERIAL_RECEIVING_DATA SERIAL_IDLE &&& 32 = 32)) ∧
    (moveConnectionState cs SERIAL_IDLE SERIAL_RECEIVED_START_BIT < 256 ∧
      moveConnectionState cs SERIAL_IDLE SERIAL_RECEIVED_START_BIT &&& 7 = cs &&& 7 ∧
      (cs &&& 32 = 32 →
        moveConnectionState cs SERIAL_IDLE SERIAL_RECEIVED_START_BIT &&& 32 = 32)) := by
  decide

set_option maxRecDepth 16000 in
/-- Bit-level facts about the SentStart to Sending move of the TX
half, under the guard with which the branch is reached: the result is
a uint8, keeps at most one TX bit set, and keeps Overflow set. -/
theorem move_tx_sent_start : ∀ cs < 256,
    connectionStateIs cs SERIAL_SENT_START_BIT = true → txOk cs →
      (moveConnectionState cs SERIAL_SENT_START_BIT SERIAL_SENDING_DATA < 256 ∧
        txOk (moveConnectionState cs SERIAL_SENT_START_BIT SERIAL_SENDING_DATA) ∧
        (cs &&& 32 = 32 →
          moveConnectionState cs SERIAL_SENT_START_BIT SERIAL_SENDING_DATA &&& 32 = 32)) := by
  decide

set_option maxRecDepth 16000 in
/-- Bit-level facts about the Sending to Idle move of the TX half
(also executed, with the wrong source bit, by the TxLocked branch):
the result is a uint8, keeps at most one TX bit set, and keeps
Overflow set. -/
theorem move_tx_sending_idle : ∀ cs < 256,
    txOk cs →
      (moveConnectionState cs SERIAL_SENDING_DATA SERIAL_IDLE < 256 ∧
        txOk (moveConnectionState cs SERIAL_SENDING_DATA SERIAL_IDLE) ∧
        (cs &&& 32 = 32 →
          moveConnectionState cs SERIAL_SENDING_DATA SERIAL_IDLE &&& 32 = 32)) := by
  decide

set_option maxRecDepth 16000 in
/-- Bit-level facts about the Sending to TxLocked move of the TX half
under its branch guard. -/
theorem move_tx_sending_locked : ∀ cs < 256,
    connectionStateIs cs SERIAL_SENT_START_BIT = false → txOk cs →
      (moveConnectionState cs SERIAL_SENDING_DATA SERIAL_TX_BUFFER_LOCKED < 256 ∧
        txOk (moveConnectionState cs SERIAL_SENDING_DATA SERIAL_TX_BUFFER_LOCKED) ∧
        (cs &&& 32 = 32 →
          moveConnectionState cs SERIAL_SENDING_DATA SERIAL_TX_BUFFER_LOCKED &&& 32 = 32)) := by
  decide

set_option maxRecDepth 16000 in
/-- Bit-level facts about the Idle to SentStart move of the TX half
under its branch guards (no TX substate bit set). -/
theorem move_tx_idle_start : ∀ cs < 256,
    (connectionStateIs cs SERIAL_SENT_START_BIT = false ∧
      connectionStateIs cs SERIAL_SENDING_DATA = false ∧
      connectionStateIs cs SERIAL_TX_BUFFER_LOCKED = false) →
      (moveConnectionState cs SERIAL_IDLE SERIAL_SENT_START_BIT < 256 ∧
        txOk (moveConnectionState cs SERIAL_IDLE SERIAL_SENT_START_BIT) ∧
        (cs &&& 32 = 32 →
          moveConnectionState cs SERIAL_IDLE SERIAL_SENT_START_BIT &&& 32 = 32)) := by
  decide

/-- The RX half changes the connection state in one of four ways: not
at all, ReceivedStart to Receiving, Receiving to Idle, or (on RX
buffer overflow inside store_data) Receiving to Overflow followed by
Receiving to Idle. -/
theorem rxHalf_cs_cases (pin : Bool) (s : SerialState) :
    (rxHalf pin s).connectionState = s.connectionState ∨
    (rxHalf pin s).connectionState =
      moveConnectionState s.connectionState SERIAL_RECEIVED_START_BIT SERIAL_RECEIVING_DATA ∨
    (rxHalf pin s).connectionState =
      moveConnectionState s.connectionState SERIAL_RECEIVING_DATA SERIAL_IDLE ∨
    (rxHalf pin s).connectionState =
      moveConnectionState
        (moveConnectionState s.connectionState SERIAL_RECEIVING_DATA SERIAL_RECEIVE_OVERFLOW)
        SERIAL_RECEIVING_DATA SERIAL_IDLE := by
  unfold rxHalf
  dsimp only
  split
  · split
    · right; left; rfl
    · left; rfl
  · split
    · split
      · split
        · unfold storeData
          dsimp only
          split
          · right; right; left; rfl
          · right; right; right; rfl
        · right; right; left; rfl
      · left; rfl
    · left; rfl

/-- The TX half changes the connection state in one of five ways, each
recorded together with the branch guard under which it happens. -/
theorem txHalf_cs_cases (s : SerialState) :
    (txHalf s).connectionState = s.connectionState ∨
    (connectionStateIs s.connectionState SERIAL_SENT_START_BIT = true ∧
      (txHalf s).connectionState =
        moveConnectionState s.connectionState SERIAL_SENT_START_BIT SERIAL_SENDING_DATA) ∨
    ((txHalf s).connectionState =
      moveConnectionState s.connectionState SERIAL_SENDING_DATA SERIAL_IDLE) ∨
    (connectionStateIs s.connectionState SERIAL_SENT_START_BIT = false ∧
      (txHalf s).connectionState =
        moveConnectionState s.connectionState SERIAL_SENDING_DATA SERIAL_TX_BUFFER_LOCKED) ∨
    (connectionStateIs s.connectionState SERIAL_SENT_START_BIT = false ∧
      connectionStateIs s.connectionState SERIAL_SENDING_DATA = false ∧
      connectionStateIs s.connectionState SERIAL_TX_BUFFER_LOCKED = false ∧
      (txHalf s).connectionState =
        moveConnectionState s.connectionState SERIAL_IDLE SERIAL_SENT_START_BIT) := by
  unfold txHalf
  dsimp only
  split
  · left; rfl
  · split
    · split
      · rename_i h
        right; left; exact ⟨h, rfl⟩
      · split
        · split
          · split
            · right; right; left; rfl
            · rename_i h0 _ _ _
              right; right; right; left
              exact ⟨by simpa using h0, rfl⟩
          · left; rfl
        · split
          · split
            · right; right; left; rfl
            · left; rfl
          · split
            · rename_i h0 h1 h2 _
              right; right; right; right
              exact ⟨by simpa using h0, by simpa using h1, by simpa using h2, rfl⟩
            · left; rfl
    · left; rfl

/-- The bottom half never changes the connection state. -/
theorem bottomHalf_cs (s : SerialState) :
    (bottomHalf s).connectionState = s.connectionState := by
  unfold bottomHalf
  split <;> rfl

/-- The edge-capture ISR either leaves the connection state alone
(spurious high edge) or moves Idle to ReceivedStart. -/
theorem pcintISR_cs_cases (speed tcnt1 : Nat) (pin : Bool) (s : SerialState) :
    (pcintISR speed tcnt1 pin s).connectionState = s.connectionState ∨
    (pcintISR speed tcnt1 pin s).connectionState =
      moveConnectionState s.connectionState SERIAL_IDLE SERIAL_RECEIVED_START_BIT := by
  unfold pcintISR
  split
  · left; rfl
  · right; rfl

/-- serial_put_char never changes the connection state. -/
theorem serialPutChar_cs (data : Nat) (s : SerialState) :
    (serialPutChar data s).2.connectionState = s.connectionState := by
  unfold serialPutChar
  dsimp only
  split <;> rfl

/-- One tick preserves the connection-state bound, the
at-most-one-TX-bit property, and a set Overflow bit. -/
theorem tick_cs_inv (pin : Bool) (s : SerialState)
    (h1 : s.connectionState < 256) (h2 : txOk s.connectionState) :
    (tickISR pin s).connectionState < 256 ∧
    txOk (tickISR pin s).connectionState ∧
    (s.connectionState &&& 32 = 32 → (tickISR pin s).connectionState &&& 32 = 32) := by
  have hr := rxHalf_cs_cases pin s
  have hrf := move_rx_facts s.connectionState h1
  have hrx : (rxHalf pin s).connectionState < 256 ∧
      (rxHalf pin s).connectionState &&& 7 = s.connectionState &&& 7 ∧
      (s.connectionState &&& 32 = 32 → (rxHalf pin s).connectionState &&& 32 = 32) := by
    rcases hr with h | h | h | h <;> rw [h]
    · exact ⟨h1, rfl, fun hb => hb⟩
    · exact hrf.1
    · exact hrf.2.1
    · exact hrf.2.2.1
  have hrx2 : txOk (rxHalf pin s).connectionState := by
    unfold txOk at h2 ⊢
    rw [hrx.2.1]
    exact h2
  have ht := txHalf_cs_cases (rxHalf pin s)
  have htx : (txHalf (rxHalf pin s)).connectionState < 256 ∧
      txOk (txHalf (rxHalf pin s)).connectionState ∧
      ((rxHalf pin s).connectionState &&& 32 = 32 →
        (txHalf (rxHalf pin s)).connectionState &&& 32 = 32) := by
    rcases ht with h | ⟨hg, h⟩ | h | ⟨hg, h⟩ | ⟨hg0, hg1, hg2, h⟩ <;> rw [h]
    · exact ⟨hrx.1, hrx2, fun hb => hb⟩
    · exact move_tx_sent_start _ hrx.1 hg hrx2
    · exact move_tx_sending_idle _ hrx.1 hrx2
    · exact move_tx_sending_locked _ hrx.1 hg hrx2
    · exact move_tx_idle_start _ hrx.1 ⟨hg0, hg1, hg2⟩
  have hb : (tickISR pin s).connectionState
      = (txHalf (rxHalf pin s)).connectionState := by
    unfold tickISR
    exact bottomHalf_cs _
  rw [hb]
  exact ⟨htx.1, htx.2.1, fun h5 => htx.2.2 (hrx.2.2 h5)⟩

/-- Every step of the core preserves the connection-state byte bound
and the at-most-one-TX-bit property, and never clears a set Overflow
bit. -/
theorem step_cs_preserved (s s' : SerialState) (hstep : Step s s')
    (h1 : s.connectionState < 256) (h2 : txOk s.connectionState) :
    s'.connectionState < 256 ∧ txOk s'.connectionState ∧
    (s.connectionState &&& 32 = 32 → s'.connectionState &&& 32 = 32) := by
  cases hstep with
  | tick pin => exact tick_cs_inv pin s h1 h2
  | pcint speed tcnt1 pin hp =>
      rcases pcintISR_cs_cases speed tcnt1 pin s with h | h <;> rw [h]
      · exact ⟨h1, h2, fun hb => hb⟩
      · have hf := (move_rx_facts s.connectionState h1).2.2.2
        refine ⟨hf.1, ?_, hf.2.2⟩
        unfold txOk at h2 ⊢
        rw [hf.2.1]
        exact h2
  | putChar data hp =>
      rw [serialPutChar_cs]
      exact ⟨h1, h2, fun hb => hb⟩
  | getChar hp => exact ⟨h1, h2, fun hb => hb⟩
  | enableReceive => exact ⟨h1, h2, fun hb => hb⟩
  | disableReceive => exact ⟨h1, h2, fun hb => hb⟩

/-- Every state reachable from the post-initialise Idle state keeps
its connection state a uint8 with at most one TX substate bit set. -/
theorem reachable_inv (s : SerialState) (h : Reachable s) :
    s.connectionState < 256 ∧ txOk s.connectionState := by
  induction h with
  | refl => exact ⟨by decide, by decide⟩
  | tail hsteps hstep ih =>
      exact ⟨(step_cs_preserved _ _ hstep ih.1 ih.2).1,
        (step_cs_preserved _ _ hstep ih.1 ih.2).2.1⟩

/-- C3 amended: in every connection state reachable from Idle via the
two ISRs and the foreground calls, at most one TX substate bit
(SentStart / Sending / TxLocked) is set, and from any uint8 connection
state with at most one TX bit a set Overflow bit survives every step
(only initialisation rewrites the whole byte).  The claimed mutual
exclusion of the RX substate bits does not hold: Overflow is sticky by
design and coexists with the bits of later frames, and re-enabling
receive mid-frame makes ReceivedStart and Receiving coexist. -/
theorem claim_C3_amended :
    (∀ s, Reachable s → txOk s.connectionState) ∧
    (∀ s s', s.connectionState < 256 → txOk s.connectionState → Step s s' →
      s.connectionState &&& SERIAL_RECEIVE_OVERFLOW = SERIAL_RECEIVE_OVERFLOW →
      s'.connectionState &&& SERIAL_RECEIVE_OVERFLOW = SERIAL_RECEIVE_OVERFLOW) := by
  constructor
  · intro s h
    exact (reachable_inv s h).2
  · intro s s' h1 h2 hstep h5
    exact (step_cs_preserved s s' hstep h1 h2).2.2 h5

/-- A state with the Overflow bit set, for the C3 witness. -/
def c3OvState : SerialState := { initState with connectionState := 32 }

/-- Witness for C3 amended: the invariant at the initial state, and
Overflow preserved across a concrete tick from an Overflow state. -/
theorem claim_C3_amended_witness :
    txOk initState.connectionState ∧
    (tickISR true c3OvState).connectionState &&& SERIAL_RECEIVE_OVERFLOW
      = SERIAL_RECEIVE_OVERFLOW := by
  constructor
  · exact claim_C3_amended.1 initState Relation.ReflTransGen.refl
  · exact claim_C3_amended.2 c3OvState (tickISR true c3OvState) (by decide) (by decide)
      (Step.tick true c3OvState) (by decide)

/-- Trace for the C3 counterexample: enable receive, capture a start
bit, sample the first data bit after the countdown (now Receiving),
then enable receive again mid-frame and let a pin-change fire. -/
def c3s1 : SerialState := serialEnableReceive initState
/-- Second state of the C3 counterexample trace. -/
def c3s2 : SerialState := pcintISR 0 0 false c3s1
/-- Third state of the C3 counterexample trace. -/
def c3s3 : SerialState := tickISR true c3s2
/-- Fourth state of the C3 counterexample trace. -/
def c3s4 : SerialState := tickISR true c3s3
/-- Fifth state of the C3 counterexample trace. -/
def c3s5 : SerialState := tickISR true c3s4
/-- Sixth state of the C3 counterexample trace: receive re-enabled by
the foreground while a frame is in progress. -/
def c3s6 : SerialState := serialEnableReceive c3s5
/-- Final state of the C3 counterexample trace. -/
def c3s7 : SerialState := pcintISR 0 0 false c3s6

/-- Counterexample to C3 as stated: a state reachable from Idle via
the ISRs and foreground calls that is outside Idle and has two RX
substate bits (ReceivedStart and Receiving) set at once, because the
edge-capture ISR moves Idle to ReceivedStart without checking that the
RX substate is Idle once the foreground re-enables receive mid-frame. -/
theorem claim_C3_counterexample :
    Reachable c3s7 ∧
    c3s7.connectionState ≠ SERIAL_IDLE ∧
    c3s7.connectionState &&& SERIAL_RECEIVED_START_BIT = SERIAL_RECEIVED_START_BIT ∧
    c3s7.connectionState &&& SERIAL_RECEIVING_DATA = SERIAL_RECEIVING_DATA := by
  refine ⟨?_, by decide, by decide, by decide⟩
  have r1 : Relation.ReflTransGen Step initState c3s1 :=
    Relation.ReflTransGen.single (Step.enableReceive initState)
  have r2 : Relation.ReflTransGen Step initState c3s2 :=
    r1.tail (Step.pcint 0 0 false c3s1 (by decide))
  have r3 : Relation.ReflTransGen Step initState c3s3 :=
    r2.tail (Step.tick true c3s2)
  have r4 : Relation.ReflTransGen Step initState c3s4 :=
    r3.tail (Step.tick true c3s3)
  have r5 : Relation.ReflTransGen Step initState c3s5 :=
    r4.tail (Step.tick true c3s4)
  have r6 : Relation.ReflTransGen Step initState c3s6 :=
    r5.tail (Step.enableReceive c3s5)
  exact r6.tail (Step.pcint 0 0 false c3s6 (by decide))

/-- Helper: in the ReceivedStart substate with a nonzero countdown,
the RX half only post-decrements the countdown. -/
theorem rxHalf_recvstart_wait (pin : Bool) (s : SerialState)
    (hcs : s.connectionState = SERIAL_RECEIVED_START_BIT)
    (hcd : s.rxSampleCountdown ≠ 0) :
    rxHalf pin s = { s with rxSampleCountdown := s.rxSampleCountdown - 1 } := by
  have hg : connectionStateIs s.connectionState SERIAL_RECEIVED_START_BIT = true := by
    rw [hcs]; decide
  simp [rxHalf, hg, hcd]

/-- Helper: in the ReceivedStart substate with the countdown reading
0, the RX half samples the first data bit at position rx_bit_counter,
increments the counter, clears rx_phase, wraps the countdown to 255
and moves to RECEIVING_DATA. -/
theorem rxHalf_recvstart_sample (pin : Bool) (s : SerialState)
    (hcs : s.connectionState = SERIAL_RECEIVED_START_BIT)
    (hcd : s.rxSampleCountdown = 0) :
    rxHalf pin s =
      { s with
          rxSampleCountdown := 255
          rxByte := if pin then (s.rxByte ||| (1 <<< s.rxBitCounter)) % 256 else s.rxByte
          rxBitCounter := (s.rxBitCounter + 1) % 256
          rxPhase := 0
          connectionState := SERIAL_RECEIVING_DATA } := by
  have hg : connectionStateIs s.connectionState SERIAL_RECEIVED_START_BIT = true := by
    rw [hcs]; decide
  have hm : moveConnectionState s.connectionState SERIAL_RECEIVED_START_BIT
      SERIAL_RECEIVING_DATA = SERIAL_RECEIVING_DATA := by
    rw [hcs]; decide
  simp [rxHalf, hg, hcd, hm]

/-- Helper: while the connection state carries no TX substate bit and
the TX buffer is empty, the TX half only advances the free-running TX
phase toggle. -/
theorem txHalf_quiet (s : SerialState)
    (hcs : s.connectionState = SERIAL_RECEIVED_START_BIT ∨
      s.connectionState = SERIAL_RECEIVING_DATA)
    (ht : s.txBuffer.top = 0) :
    txHalf s = if s.txPhase = 0 then { s with txPhase := 1 }
               else if s.txPhase = 1 then { s with txPhase := 0 } else s := by
  have h0 : connectionStateIs s.connectionState SERIAL_SENT_START_BIT = false := by
    rcases hcs with h | h <;> rw [h] <;> decide
  have h1 : connectionStateIs s.connectionState SERIAL_SENDING_DATA = false := by
    rcases hcs with h | h <;> rw [h] <;> decide
  have h2 : connectionStateIs s.connectionState SERIAL_TX_BUFFER_LOCKED = false := by
    rcases hcs with h | h <;> rw [h] <;> decide
  by_cases hp0 : s.txPhase = 0
  · simp [txHalf, hp0]
  · by_cases hp1 : s.txPhase = 1
    · simp [txHalf, hp0, hp1, h0, h1, h2, ht]
    · simp [txHalf, hp0, hp1]

/-- Helper: with a clean RX buffer the bottom half does nothing. -/
theorem bottomHalf_clean (s : SerialState) (h : s.rxBuffer.dirty = false) :
    bottomHalf s = s := by
  simp [bottomHalf, h]

/-- Helper: projection form of one waiting tick in ReceivedStart (TX
idle with empty buffer, RX buffer clean): the countdown drops by one
and every other RX-relevant field is unchanged. -/
theorem tick_recvstart_wait (pin : Bool) (s : SerialState)
    (hcs : s.connectionState = SERIAL_RECEIVED_START_BIT)
    (hcd : s.rxSampleCountdown ≠ 0)
    (ht : s.txBuffer.top = 0) (hd : s.rxBuffer.dirty = false) :
    (tickISR pin s).connectionState = SERIAL_RECEIVED_START_BIT ∧
    (tickISR pin s).rxSampleCountdown = s.rxSampleCountdown - 1 ∧
    (tickISR pin s).rxBitCounter = s.rxBitCounter ∧
    (tickISR pin s).rxByte = s.rxByte ∧
    (tickISR pin s).txBuffer.top = 0 ∧
    (tickISR pin s).rxBuffer.dirty = false := by
  unfold tickISR
  rw [rxHalf_recvstart_wait pin s hcs hcd]
  rw [txHalf_quiet _ (Or.inl (by simpa using hcs)) (by simpa using ht)]
  split
  · rw [bottomHalf_clean _ (by simpa using hd)]
    exact ⟨by simpa using hcs, rfl, rfl, rfl, by simpa using ht, by simpa using hd⟩
  · split
    · rw [bottomHalf_clean _ (by simpa using hd)]
      exact ⟨by simpa using hcs, rfl, rfl, rfl, by simpa using ht, by simpa using hd⟩
    · rw [bottomHalf_clean _ (by simpa using hd)]
      exact ⟨by simpa using hcs, rfl, rfl, rfl, by simpa using ht, by simpa using hd⟩

/-- Helper: projection form of the sampling tick (countdown reads 0 in
ReceivedStart): the first data bit is sampled at the current
rx_bit_counter position, the counter is incremented, rx_phase cleared,
and the substate becomes RECEIVING_DATA. -/
theorem tick_recvstart_sample (pin : Bool) (s : SerialState)
    (hcs : s.connectionState = SERIAL_RECEIVED_START_BIT)
    (hcd : s.rxSampleCountdown = 0)
    (ht : s.txBuffer.top = 0) (hd : s.rxBuffer.dirty = false) :
    (tickISR pin s).connectionState = SERIAL_RECEIVING_DATA ∧
    (tickISR pin s).rxBitCounter = (s.rxBitCounter + 1) % 256 ∧
    (tickISR pin s).rxPhase = 0 ∧
    (tickISR pin s).rxByte =
      (if pin then (s.rxByte ||| (1 <<< s.rxBitCounter)) % 256 else s.rxByte) := by
  unfold tickISR
  rw [rxHalf_recvstart_sample pin s hcs hcd]
  rw [txHalf_quiet _ (Or.inr (by simp)) (by simpa using ht)]
  dsimp only
  by_cases hp0 : s.txPhase = 0
  · rw [if_pos hp0, bottomHalf_clean _ (by simpa using hd)]
    exact ⟨rfl, rfl, rfl, rfl⟩
  · by_cases hp1 : s.txPhase = 1
    · rw [if_neg hp0, if_pos hp1, bottomHalf_clean _ (by simpa using hd)]
      exact ⟨rfl, rfl, rfl, rfl⟩
    · rw [if_neg hp0, if_neg hp1, bottomHalf_clean _ (by simpa using hd)]
      exact ⟨rfl, rfl, rfl, rfl⟩

/-- C4 amended: the edge-capture ISR seeds sample_countdown to 2 when
the captured timer count is below the per-baud threshold and to 3
otherwise; the tick ISR in ReceivedStart post-decrements the countdown
and samples on the tick at which the countdown already read 0 before
the decrement, so with seed 2 the first data bit is sampled on the 3rd
tick after the edge (after 2 ticks the countdown is 0 but nothing has
been sampled) and with seed 3 on the 4th tick; at the sampling tick
the bit is ORed into rx_byte at position rx_bit_counter (bit 0 for a
fresh frame), the counter is incremented, rx_phase cleared and the
substate moves to Receiving. -/
theorem claim_C4_amended :
    (∀ speed tcnt1 s, (pcintISR speed tcnt1 false s).rxSampleCountdown =
        if tcnt1 % 256 < sampleOffsetTreshold speed then 2 else 3) ∧
    (∀ s : SerialState, ∀ pin1 pin2 pin3 : Bool,
      s.connectionState = SERIAL_RECEIVED_START_BIT →
      s.rxSampleCountdown = 2 →
      s.txBuffer.top = 0 → s.rxBuffer.dirty = false →
      (runTicks s [pin1, pin2]).connectionState = SERIAL_RECEIVED_START_BIT ∧
      (runTicks s [pin1, pin2]).rxBitCounter = s.rxBitCounter ∧
      (runTicks s [pin1, pin2]).rxSampleCountdown = 0 ∧
      (runTicks s [pin1, pin2, pin3]).connectionState = SERIAL_RECEIVING_DATA ∧
      (runTicks s [pin1, pin2, pin3]).rxBitCounter = (s.rxBitCounter + 1) % 256 ∧
      (runTicks s [pin1, pin2, pin3]).rxPhase = 0 ∧
      (runTicks s [pin1, pin2, pin3]).rxByte =
        (if pin3 then (s.rxByte ||| (1 <<< s.rxBitCounter)) % 256 else s.rxByte)) ∧
    (∀ s : SerialState, ∀ pin1 pin2 pin3 pin4 : Bool,
      s.connectionState = SERIAL_RECEIVED_START_BIT →
      s.rxSampleCountdown = 3 →
      s.txBuffer.top = 0 → s.rxBuffer.dirty = false →
      (runTicks s [pin1, pin2, pin3]).connectionState = SERIAL_RECEIVED_START_BIT ∧
      (runTicks s [pin1, pin2, pin3]).rxSampleCountdown = 0 ∧
      (runTicks s [pin1, pin2, pin3, pin4]).connectionState = SERIAL_RECEIVING_DATA ∧
      (runTicks s [pin1, pin2, pin3, pin4]).rxBitCounter = (s.rxBitCounter + 1) % 256 ∧
      (runTicks s [pin1, pin2, pin3, pin4]).rxByte =
        (if pin4 then (s.rxByte ||| (1 <<< s.rxBitCounter)) % 256 else s.rxByte)) := by
  refine ⟨?_, ?_, ?_⟩
  · intro speed tcnt1 s
    simp [pcintISR]
  · intro s p1 p2 p3 hcs hcd ht hd
    obtain ⟨a1, a2, a3, a4, a5, a6⟩ :=
      tick_recvstart_wait p1 s hcs (by rw [hcd]; decide) ht hd
    obtain ⟨b1, b2, b3, b4, b5, b6⟩ :=
      tick_recvstart_wait p2 (tickISR p1 s) a1 (by rw [a2, hcd]; decide) a5 a6
    obtain ⟨c1, c2, c3, c4⟩ :=
      tick_recvstart_sample p3 (tickISR p2 (tickISR p1 s)) b1
        (by rw [b2, a2, hcd]) b5 b6
    have e2 : runTicks s [p1, p2] = tickISR p2 (tickISR p1 s) := rfl
    have e3 : runTicks s [p1, p2, p3] = tickISR p3 (tickISR p2 (tickISR p1 s)) := rfl
    rw [e2, e3]
    refine ⟨b1, ?_, ?_, c1, ?_, c3, ?_⟩
    · rw [b3, a3]
    · rw [b2, a2, hcd]
    · rw [c2, b3, a3]
    · rw [c4, b4, a4, b3, a3]
  · intro s p1 p2 p3 p4 hcs hcd ht hd
    obtain ⟨a1, a2, a3, a4, a5, a6⟩ :=
      tick_recvstart_wait p1 s hcs (by rw [hcd]; decide) ht hd
    obtain ⟨b1, b2, b3, b4, b5, b6⟩ :=
      tick_recvstart_wait p2 (tickISR p1 s) a1 (by rw [a2, hcd]; decide) a5 a6
    obtain ⟨c1, c2, c3, c4, c5, c6⟩ :=
      tick_recvstart_wait p3 (tickISR p2 (tickISR p1 s)) b1
        (by rw [b2, a2, hcd]; decide) b5 b6
    obtain ⟨d1, d2, d3, d4⟩ :=
      tick_recvstart_sample p4 (tickISR p3 (tickISR p2 (tickISR p1 s))) c1
        (by rw [c2, b2, a2, hcd]) c5 c6
    have e3 : runTicks s [p1, p2, p3] = tickISR p3 (tickISR p2 (tickISR p1 s)) := rfl
    have e4 : runTicks s [p1, p2, p3, p4] =
      tickISR p4 (tickISR p3 (tickISR p2 (tickISR p1 s))) := rfl
    rw [e3, e4]
    refine ⟨c1, ?_, d1, ?_, ?_⟩
    · rw [c2, b2, a2, hcd]
    · rw [d2, c3, b3, a3]
    · rw [d4, c4, b4, a4, c3, b3, a3]

/-- Witness for C4 amended at the concrete seeded states: an edge
captured at count 0 seeds countdown 2, and from the counterexample
state the 3rd tick samples the first data bit. -/
theorem claim_C4_amended_witness :
    (pcintISR 0 0 false initState).rxSampleCountdown = 2 ∧
    (runTicks c4State [true, true, true]).connectionState = SERIAL_RECEIVING_DATA ∧
    (runTicks c4State [true, true, true]).rxByte = 1 := by
  have h := claim_C4_amended
  have h2 := h.2.1 c4State true true true rfl rfl rfl rfl
  refine ⟨?_, h2.2.2.2.1, ?_⟩
  · rw [h.1 0 0 initState]
    decide
  · have := h2.2.2.2.2.2.2
    simpa using this

/-- Concrete pre-call state for C5: not initialised, NULL buffer
pointers, timer stopped, all registers clear. -/
def c5Pre : InitState := ⟨128, none, none, 0, 0, 0, 0, 0, 0, 0⟩

/-- Counterexample to C5 as stated: with both allocations succeeding
and the TX pin index 6 out of range, serial_initialise returns
SERIAL_ERROR, and the connection state does remain NotInitialised, but
the buffers' data pointers have already been overwritten with the
fresh allocations before the I/O setup check, so a field of the core's
state does differ from its pre-call value. -/
theorem claim_C5_counterexample :
    (serialInitialise PortSel.portB 6 PortSel.pinB 4 0 (some 100) (some 200) c5Pre).1
      = SERIAL_ERROR ∧
    (serialInitialise PortSel.portB 6 PortSel.pinB 4 0 (some 100) (some 200) c5Pre).2.connectionState
      = SERIAL_NOT_INITIALISED ∧
    c5Pre.rxDataPtr = none ∧
    (serialInitialise PortSel.portB 6 PortSel.pinB 4 0 (some 100) (some 200) c5Pre).2.rxDataPtr
      = some 100 := by
  refine ⟨?_, ?_, rfl, ?_⟩ <;> decide

/-- setup_io only writes DDRB and PORTB: the connection state is not
touched by it. -/
@[simp] theorem setupIoPin_connState (port : PortSel) (pin : Nat) (dir : SerialDirection)
    (s : InitState) : (setupIoPin port pin dir s).2.connectionState = s.connectionState := by
  unfold setupIoPin
  split
  · rfl
  · split
    · rfl
    · cases dir <;> rfl

/-- setup_io does not touch the RX buffer data pointer. -/
@[simp] theorem setupIoPin_rxDataPtr (port : PortSel) (pin : Nat) (dir : SerialDirection)
    (s : InitState) : (setupIoPin port pin dir s).2.rxDataPtr = s.rxDataPtr := by
  unfold setupIoPin
  split
  · rfl
  · split
    · rfl
    · cases dir <;> rfl

/-- setup_io does not touch the TX buffer data pointer. -/
@[simp] theorem setupIoPin_txDataPtr (port : PortSel) (pin : Nat) (dir : SerialDirection)
    (s : InitState) : (setupIoPin port pin dir s).2.txDataPtr = s.txDataPtr := by
  unfold setupIoPin
  split
  · rfl
  · split
    · rfl
    · cases dir <;> rfl

/-- setup_io does not touch PCMSK. -/
@[simp] theorem setupIoPin_pcmsk (port : PortSel) (pin : Nat) (dir : SerialDirection)
    (s : InitState) : (setupIoPin port pin dir s).2.pcmsk = s.pcmsk := by
  unfold setupIoPin
  split
  · rfl
  · split
    · rfl
    · cases dir <;> rfl

/-- setup_io does not touch TIMSK. -/
@[simp] theorem setupIoPin_timsk (port : PortSel) (pin : Nat) (dir : SerialDirection)
    (s : InitState) : (setupIoPin port pin dir s).2.timsk = s.timsk := by
  unfold setupIoPin
  split
  · rfl
  · split
    · rfl
    · cases dir <;> rfl

/-- setup_io does not touch TCCR1. -/
@[simp] theorem setupIoPin_tccr1 (port : PortSel) (pin : Nat) (dir : SerialDirection)
    (s : InitState) : (setupIoPin port pin dir s).2.tccr1 = s.tccr1 := by
  unfold setupIoPin
  split
  · rfl
  · split
    · rfl
    · cases dir <;> rfl

/-- setup_io does not touch OCR1A. -/
@[simp] theorem setupIoPin_ocr1a (port : PortSel) (pin : Nat) (dir : SerialDirection)
    (s : InitState) : (setupIoPin port pin dir s).2.ocr1a = s.ocr1a := by
  unfold setupIoPin
  split
  · rfl
  · split
    · rfl
    · cases dir <;> rfl

/-- setup_io does not touch OCR1C. -/
@[simp] theorem setupIoPin_ocr1c (port : PortSel) (pin : Nat) (dir : SerialDirection)
    (s : InitState) : (setupIoPin port pin dir s).2.ocr1c = s.ocr1c := by
  unfold setupIoPin
  split
  · rfl
  · split
    · rfl
    · cases dir <;> rfl

/-- C5 amended: whenever serial_initialise returns SERIAL_ERROR the
connection state is unchanged (so the core stays NotInitialised) and
none of the timer or interrupt configuration has been programmed
(TCCR1, TIMSK, PCMSK, OCR1A, OCR1C keep their pre-call values); but
the error return is not free of partial effects: once both allocations
succeed the RX and TX buffer data pointers are updated before the I/O
checks, and a failure of the RX pin setup leaves the TX pin already
configured in DDRB/PORTB. -/
theorem claim_C5_amended (txPort : PortSel) (txPin : Nat) (rxPort : PortSel)
    (rxPin speed : Nat) (rxAlloc txAlloc : Option Nat) (s : InitState)
    (herr : (serialInitialise txPort txPin rxPort rxPin speed rxAlloc txAlloc s).1
      = SERIAL_ERROR) :
    (serialInitialise txPort txPin rxPort rxPin speed rxAlloc txAlloc s).2.connectionState
      = s.connectionState ∧
    (serialInitialise txPort txPin rxPort rxPin speed rxAlloc txAlloc s).2.tccr1 = s.tccr1 ∧
    (serialInitialise txPort txPin rxPort rxPin speed rxAlloc txAlloc s).2.timsk = s.timsk ∧
    (serialInitialise txPort txPin rxPort rxPin speed rxAlloc txAlloc s).2.pcmsk = s.pcmsk ∧
    (serialInitialise txPort txPin rxPort rxPin speed rxAlloc txAlloc s).2.ocr1a = s.ocr1a ∧
    (serialInitialise txPort txPin rxPort rxPin speed rxAlloc txAlloc s).2.ocr1c = s.ocr1c := by
  revert herr
  unfold serialInitialise
  split
  · intro _
    exact ⟨rfl, rfl, rfl, rfl, rfl, rfl⟩
  · rcases rxAlloc with _ | rxd
    · intro _
      exact ⟨rfl, rfl, rfl, rfl, rfl, rfl⟩
    · rcases txAlloc with _ | txd
      · intro _
        exact ⟨rfl, rfl, rfl, rfl, rfl, rfl⟩
      · dsimp only
        split
        · intro _
          refine ⟨?_, ?_, ?_, ?_, ?_, ?_⟩ <;> simp
        · split
          · intro _
            refine ⟨?_, ?_, ?_, ?_, ?_, ?_⟩ <;> simp
          · intro h
            exact absurd h (by simp)

/-- Witness for C5 amended at the concrete failing input of the
counterexample state. -/
theorem claim_C5_amended_witness :
    (serialInitialise PortSel.portB 6 PortSel.pinB 4 0 (some 100) (some 200) c5Pre).2.connectionState
      = c5Pre.connectionState ∧
    (serialInitialise PortSel.portB 6 PortSel.pinB 4 0 (some 100) (some 200) c5Pre).2.tccr1
      = c5Pre.tccr1 := by
  have h := claim_C5_amended PortSel.portB 6 PortSel.pinB 4 0 (some 100) (some 200) c5Pre
    (by decide)
  exact ⟨h.1, h.2.1⟩

/-- Witness for C9: serial_put_char 65 on the post-initialise state
succeeds and writes 65 at index 0. -/
theorem claim_C9_put_char_contract_witness :
    (serialPutChar 65 initState).1 = SERIAL_OK ∧
    (serialPutChar 65 initState).2.txBuffer.top = 1 ∧
    (serialPutChar 65 initState).2.txBuffer.data 0 = 65 := by
  have h := claim_C9_put_char_contract initState 65 (by decide) rfl
  exact ⟨h.1.mpr (by decide), (h.2.1 (by decide)).1, (h.2.1 (by decide)).2.1⟩

end LibSerial
